import Mathlib

/-!
Shallow embedding of the payment-gateway signature codecs, request builders
and notification reconcilers of the pool-drizzle-express repository
(src/src/utils/ozow.ts, src/src/utils/email.ts (PayFast codec half),
src/src/routes/ozow.ts, src/src/routes/payfast-itn.ts,
src/src/routes/payfast.ts, src/src/routes/checkout.ts).

Modelling conventions:
- JavaScript strings are modelled as `List Char` (`Str`).
- The Node `crypto` digests (`sha512`/`md5`, hex output) are external library
  primitives, modelled as an explicit function parameter `H : Str → Str`;
  every theorem quantifies over it, so the proved properties are exactly the
  structural facts about preimage construction and comparison that the code
  is responsible for.
- JavaScript `number` money values are modelled as `Int` (cents) where the
  code works in cents, and as exact scaled decimals (`Dec`) where the code
  works with decimal rand amounts (`parseFloat`, `toFixed(2)`); IEEE-754
  rounding noise is outside the embedding.
- Fallible route handlers return `Except String _` or a
  `(HTTP status, Option updatedOrder)` pair; `none` means no database write.
-/

/-- JavaScript strings, modelled as lists of characters. -/
abbrev Str := List Char

/-- Coerce a Lean string literal to the `Str` model. -/
def chars (s : String) : Str := s.data

/-- Whitespace recognised by `String.prototype.trim` (ASCII subset that can
occur in the payloads at hand). -/
def jsSpace (c : Char) : Bool :=
  c = ' ' || c = '\t' || c = '\n' || c = '\r'

/-- Model of `String.prototype.trim`: drop whitespace at both ends. -/
def jsTrim (s : Str) : Str :=
  ((s.dropWhile jsSpace).reverse.dropWhile jsSpace).reverse

/-- Model of `String.prototype.toLowerCase` (ASCII case folding, which is all
the gateway payloads use). -/
def jsToLower (s : Str) : Str := s.map Char.toLower

/-- Model of `.replace(/^0+/, "")`: strip leading `'0'` characters. -/
def stripLeadingZeros (s : Str) : Str := s.dropWhile (fun c => c = '0')

/-- Uppercase hex digit for a nibble, as produced by `encodeURIComponent`. -/
def hexDigit (n : Nat) : Char :=
  if n < 10 then Char.ofNat (48 + n) else Char.ofNat (55 + n)

/-- Percent-escape of one byte, e.g. `32 ↦ "%20"`. -/
def byteEscape (b : Nat) : Str := ['%', hexDigit (b / 16), hexDigit (b % 16)]

/-- UTF-8 bytes of a character (standard 1-4 byte encoding). -/
def utf8Bytes (c : Char) : List Nat :=
  let n := c.toNat
  if n < 128 then [n]
  else if n < 2048 then [192 + n / 64, 128 + n % 64]
  else if n < 65536 then [224 + n / 4096, 128 + (n / 64) % 64, 128 + n % 64]
  else [240 + n / 262144, 128 + (n / 4096) % 64, 128 + (n / 64) % 64, 128 + n % 64]

/-- Characters `encodeURIComponent` leaves unescaped:
`A-Z a-z 0-9 - _ . ! ~ * ' ( )`. -/
def uriUnreserved (c : Char) : Bool :=
  (65 ≤ c.toNat && c.toNat ≤ 90) || (97 ≤ c.toNat && c.toNat ≤ 122) ||
  (48 ≤ c.toNat && c.toNat ≤ 57) ||
  c.toNat ∈ [45, 95, 46, 33, 126, 42, 39, 40, 41]

/-- Model of JavaScript `encodeURIComponent`. -/
def encodeURIComponent (s : Str) : Str :=
  (s.map (fun c =>
    if uriUnreserved c then [c]
    else ((utf8Bytes c).map byteEscape).flatten)).flatten

/-- Model of `String.prototype.replace(pat, rep)` with a global literal
pattern: non-overlapping left-to-right replacement.  Structural recursion on
a fuel bounded by the input length keeps the definition kernel-evaluable. -/
def replaceAll (pat rep : Str) (s : Str) : Str := go s.length s
where
  go : Nat → Str → Str
    | _, [] => []
    | 0, rest => rest
    | Nat.succ fuel, c :: rest =>
      if pat ≠ [] ∧ pat.isPrefixOf (c :: rest) then
        rep ++ go fuel (List.drop (pat.length - 1) rest)
      else
        c :: go fuel rest

/-- PayFast value serialization: `encodeURIComponent(value).replace(/%20/g, '+')`
(spaces become `+`). -/
def pfEncode (v : Str) : Str := replaceAll (chars "%20") (chars "+") (encodeURIComponent v)

/-- Join strings with `&`, as `Array.prototype.join('&')`. -/
def joinAmp (l : List Str) : Str := List.intercalate (chars "&") l

/-- JavaScript default string comparison (`<` on code units), as used by
`Array.prototype.sort()` over object keys. -/
def strLtB : Str → Str → Bool
  | [], [] => false
  | [], _ :: _ => true
  | _ :: _, [] => false
  | a :: as, b :: bs =>
    if a.toNat < b.toNat then true
    else if b.toNat < a.toNat then false
    else strLtB as bs

/-- Stable insertion of a key-value pair into a key-sorted association list. -/
def insertPair (p : Str × Str) : List (Str × Str) → List (Str × Str)
  | [] => [p]
  | q :: t => if strLtB q.1 p.1 then q :: insertPair p t else p :: q :: t

/-- Stable sort of an association list by key, modelling `Object.keys(x).sort()`
followed by a lookup of each key. -/
def sortPairs : List (Str × Str) → List (Str × Str)
  | [] => []
  | p :: t => insertPair p (sortPairs t)

/-- Lookup of an object field; `none` models an absent (undefined) key. -/
def getField (data : List (Str × Str)) (k : String) : Option Str :=
  (data.find? (fun kv => kv.1 == chars k)).map (·.2)

/-- Field lookup defaulted to the empty string (JS falsy for both `undefined`
and `""`, which is the only way the handlers use these values). -/
def getStr (data : List (Str × Str)) (k : String) : Str :=
  (getField data k).getD []

/-- Drop the `signature` key, modelling `const { signature, ...rest } = data`
and the `key !== 'signature'` filter. -/
def dropSignature (data : List (Str × Str)) : List (Str × Str) :=
  data.filter (fun kv => kv.1 ≠ chars "signature")

/-- Decimal digits of a natural number. -/
def natDigits (n : Nat) : Str := Nat.toDigits 10 n

/-- Decimal rendering of an integer. -/
def intDigits (i : Int) : Str :=
  if i < 0 then '-' :: natDigits i.natAbs else natDigits i.natAbs

/-- Exact 2-decimal string for an integer number of cents, modelling
`(cents / 100).toFixed(2)` on values where the float arithmetic is exact. -/
def centsToAmountStr (c : Int) : Str :=
  if c < 0 then '-' :: centsToAmountStrNat c.natAbs else centsToAmountStrNat c.toNat
where
  centsToAmountStrNat (n : Nat) : Str :=
    natDigits (n / 100) ++ '.' ::
      (if n % 100 < 10 then '0' :: natDigits (n % 100) else natDigits (n % 100))

/-- Digit test used by the `parseFloat` model. -/
def jsDigit (c : Char) : Bool := 48 ≤ c.toNat && c.toNat ≤ 57

/-- Value of a digit string (most significant first). -/
def natOfDigits (l : Str) : Nat := l.foldl (fun a c => a * 10 + (c.toNat - 48)) 0

/-- Exact decimal number `num / 10 ^ pow`, used to model the JavaScript
`number` amounts the PayFast ITN handler obtains from `parseFloat` and
`toFixed(2)`.  Exact decimal arithmetic stands in for IEEE-754 doubles, which
are exact on the short currency strings the gateways exchange. -/
structure Dec where
  num : Int
  pow : Nat
deriving DecidableEq

/-- A whole-number amount. -/
def Dec.ofInt (i : Int) : Dec := ⟨i, 0⟩

/-- An amount given in cents (two decimal places). -/
def Dec.ofCents (c : Int) : Dec := ⟨c, 2⟩

/-- Model of JavaScript `parseFloat` on plain decimal notation (sign,
integer part, optional fraction; exponents do not occur in gateway amounts).
`none` models `NaN`. -/
def parseFloatDec (s0 : Str) : Option Dec :=
  let s1 := s0.dropWhile jsSpace
  let neg : Bool := match s1 with
    | c :: _ => c = '-'
    | [] => false
  let s := match s1 with
    | c :: t => if c = '-' || c = '+' then t else c :: t
    | [] => []
  let ip := s.takeWhile jsDigit
  let rest := s.dropWhile jsDigit
  let fp := match rest with
    | c :: t => if c = '.' then t.takeWhile jsDigit else []
    | [] => []
  if ip = [] ∧ fp = [] then none
  else
    let mag : Int := (natOfDigits ip * 10 ^ fp.length + natOfDigits fp : Nat)
    some ⟨if neg then -mag else mag, fp.length⟩

/-- Rounding to 2 decimals, modelling `x.toFixed(2)` followed by `parseFloat`
(ties round toward the larger candidate, as ECMA `toFixed` prescribes):
`⌊x * 100 + 1/2⌋ / 100` computed exactly. -/
def round2 (d : Dec) : Dec :=
  ⟨Int.fdiv (200 * d.num + 10 ^ d.pow) (2 * 10 ^ d.pow), 2⟩

/-- Exact test for `Math.abs(a - b) > 0.01`. -/
def absDiffGtCent (a b : Dec) : Bool :=
  100 * (a.num * 10 ^ b.pow - b.num * 10 ^ a.pow).natAbs > 10 ^ (a.pow + b.pow)

example : chars "ab" = ['a', 'b'] := by decide
example : jsTrim (chars "  x y ") = chars "x y" := by decide
example : jsToLower (chars "AbC0") = chars "abc0" := by decide
example : stripLeadingZeros (chars "00a0") = chars "a0" := by decide
example : encodeURIComponent (chars "a b/") = chars "a%20b%2F" := by decide
example : pfEncode (chars "a b/") = chars "a+b%2F" := by decide
example : sortPairs [(chars "b", chars "2"), (chars "a", chars "1")]
    = [(chars "a", chars "1"), (chars "b", chars "2")] := by decide
example : parseFloatDec (chars "529.00") = some ⟨52900, 2⟩ := by decide
example : parseFloatDec (chars "-1.5") = some ⟨-15, 1⟩ := by decide
example : parseFloatDec (chars "x") = none := by decide
example : round2 ⟨529, 0⟩ = ⟨52900, 2⟩ := by decide
example : absDiffGtCent ⟨52900, 2⟩ ⟨52902, 2⟩ = true := by decide
example : absDiffGtCent ⟨52900, 2⟩ ⟨52901, 2⟩ = false := by decide
example : centsToAmountStr 52900 = chars "529.00" := by decide
example : centsToAmountStr 105 = chars "1.05" := by decide

/-! ## Ozow codec and builders (src/src/utils/ozow.ts, both file versions)

The file contains two revisions of the same module.  They build the identical
post-hash preimage (11 fields, trimmed, concatenated, lower-cased) and differ
only in which configured secret (`OZOW_API_KEY` vs `OZOW_PRIVATE_KEY`) they
require, append and hash with; that secret is the `hashKey` parameter here.
The SHA-512 hex digest is the external primitive `sha512hex`. -/

/-- Configuration read from the environment (`ENV` object in ozow.ts).
An empty string models an unset (falsy) variable. -/
structure OzowEnv where
  SITE : Str
  COUNTRY : Str
  CURRENCY : Str
  PRIVATE_KEY : Str
  API_KEY : Str
  SUCCESS : Str
  CANCEL : Str
  ERROR : Str
  NOTIFY : Str
  IS_TEST : Str
deriving DecidableEq

/-- The outbound Ozow payload (`OzowPost` type in ozow.ts). -/
structure OzowPost where
  SiteCode : Str
  CountryCode : Str
  CurrencyCode : Str
  Amount : Str
  TransactionReference : Str
  BankReference : Str
  CancelUrl : Option Str
  ErrorUrl : Option Str
  SuccessUrl : Option Str
  NotifyUrl : Option Str
  Customer : Option Str
  Optional1 : Option Str
  Optional2 : Option Str
  Optional3 : Option Str
  Optional4 : Option Str
  Optional5 : Option Str
  IsTest : Str
  HashCheck : Option Str
deriving DecidableEq

/-- The `safe` helper of `computePostHash`: `(v ?? "").trim()`. -/
def safe (v : Option Str) : Str := jsTrim (v.getD [])

/-- The concatenated core-field preimage of `computePostHash` (both versions
join exactly these 11 trimmed fields in this order; `Customer` and
`Optional1`-`Optional5` are not included). -/
def postHashParts (p : OzowPost) : Str :=
  safe (some p.SiteCode) ++ safe (some p.CountryCode) ++ safe (some p.CurrencyCode) ++
  safe (some p.Amount) ++ safe (some p.TransactionReference) ++ safe (some p.BankReference) ++
  safe p.CancelUrl ++ safe p.ErrorUrl ++ safe p.SuccessUrl ++ safe p.NotifyUrl ++
  safe (some p.IsTest)

/-- `computePostHash` of ozow.ts: SHA-512 hex of the lower-cased
concatenation of the 11 core fields with the configured hash key appended. -/
def computePostHash (sha512hex : Str → Str) (hashKey : Str) (p : OzowPost) : Str :=
  sha512hex (jsToLower (postHashParts p ++ hashKey))

/-- Inbound Ozow notification/redirect fields (argument of
`validateResponseHash`). -/
structure OzowResponse where
  SiteCode : Str
  TransactionId : Str
  TransactionReference : Str
  Amount : Str
  Status : Str
  Optional1 : Option Str
  Optional2 : Option Str
  Optional3 : Option Str
  Optional4 : Option Str
  Optional5 : Option Str
  CurrencyCode : Str
  IsTest : Str
  StatusMessage : Option Str
  Hash : Str
deriving DecidableEq

/-- The response preimage of `validateResponseHash`: response fields in
document order (absent optionals as `""`) with the configured key appended. -/
def responsePreimage (hashKey : Str) (r : OzowResponse) : Str :=
  r.SiteCode ++ r.TransactionId ++ r.TransactionReference ++ r.Amount ++
  r.Status ++ r.Optional1.getD [] ++ r.Optional2.getD [] ++ r.Optional3.getD [] ++
  r.Optional4.getD [] ++ r.Optional5.getD [] ++
  r.CurrencyCode ++ r.IsTest ++ r.StatusMessage.getD [] ++ hashKey

/-- `validateResponseHash` of ozow.ts: lower-case the preimage, SHA-512 it,
strip leading zeros from the computed digest and from the lower-cased
received hash, compare. -/
def validateResponseHash (sha512hex : Str → Str) (hashKey : Str) (r : OzowResponse) : Bool :=
  stripLeadingZeros (sha512hex (jsToLower (responsePreimage hashKey r))) ==
    stripLeadingZeros (jsToLower r.Hash)

/-- `BankReference` sanitization in `buildPost`:
`.replace(/[^A-Za-z0-9 \-]/g, "").slice(0,20)`. -/
def sanitizeBankRef (s : Str) : Str :=
  (s.filter (fun c =>
    (65 ≤ c.toNat && c.toNat ≤ 90) || (97 ≤ c.toNat && c.toNat ≤ 122) ||
    (48 ≤ c.toNat && c.toNat ≤ 57) || c = ' ' || c = '-')).take 20

/-- Input of the Ozow `buildPost` functions.  `amountStr` stands for
`input.amountRands.toFixed(2)`, the already-formatted amount string. -/
structure OzowBuildInput where
  amountStr : Str
  transactionRef : Str
  bankRef : Str
  customerEmail : Option Str
  Optional1 : Option Str
  Optional2 : Option Str
  Optional3 : Option Str
  Optional4 : Option Str
  Optional5 : Option Str
deriving DecidableEq

namespace OzowA

/-- `buildPost` of the first ozow.ts revision: requires the site code, the
API key (its hash key) and the four callback URLs, sends the `Customer` and
`Optional` fields in the payload, and signs with the API key. -/
def buildPost (sha512hex : Str → Str) (env : OzowEnv) (input : OzowBuildInput) :
    Except String OzowPost :=
  if env.SITE = [] then .error "OZOW_SITE_CODE is not configured"
  else if env.API_KEY = [] then .error "OZOW_API_KEY is not configured (used for hash generation)"
  else if env.SUCCESS = [] then .error "OZOW_SUCCESS_URL is not configured"
  else if env.CANCEL = [] then .error "OZOW_CANCEL_URL is not configured"
  else if env.ERROR = [] then .error "OZOW_ERROR_URL is not configured"
  else if env.NOTIFY = [] then .error "OZOW_NOTIFY_URL is not configured"
  else
    let p : OzowPost :=
      { SiteCode := env.SITE
        CountryCode := env.COUNTRY
        CurrencyCode := env.CURRENCY
        Amount := input.amountStr
        TransactionReference := input.transactionRef
        BankReference := sanitizeBankRef input.bankRef
        CancelUrl := some env.CANCEL
        ErrorUrl := some env.ERROR
        SuccessUrl := some env.SUCCESS
        NotifyUrl := some env.NOTIFY
        Customer := input.customerEmail
        Optional1 := input.Optional1
        Optional2 := input.Optional2
        Optional3 := input.Optional3
        Optional4 := input.Optional4
        Optional5 := input.Optional5
        IsTest := env.IS_TEST
        HashCheck := none }
    .ok { p with HashCheck := some (computePostHash sha512hex env.API_KEY p) }

end OzowA

namespace OzowB

/-- `buildPost` of the second ozow.ts revision: requires the private key
instead of the API key, omits `Customer` and the `Optional` fields from the
payload, and signs with the private key. -/
def buildPost (sha512hex : Str → Str) (env : OzowEnv) (input : OzowBuildInput) :
    Except String OzowPost :=
  if env.SITE = [] then .error "OZOW_SITE_CODE is not configured"
  else if env.PRIVATE_KEY = [] then .error "OZOW_PRIVATE_KEY is not configured (used for hash generation)"
  else if env.SUCCESS = [] then .error "OZOW_SUCCESS_URL is not configured"
  else if env.CANCEL = [] then .error "OZOW_CANCEL_URL is not configured"
  else if env.ERROR = [] then .error "OZOW_ERROR_URL is not configured"
  else if env.NOTIFY = [] then .error "OZOW_NOTIFY_URL is not configured"
  else
    let p : OzowPost :=
      { SiteCode := env.SITE
        CountryCode := env.COUNTRY
        CurrencyCode := env.CURRENCY
        Amount := input.amountStr
        TransactionReference := input.transactionRef
        BankReference := sanitizeBankRef input.bankRef
        CancelUrl := some env.CANCEL
        ErrorUrl := some env.ERROR
        SuccessUrl := some env.SUCCESS
        NotifyUrl := some env.NOTIFY
        Customer := none
        Optional1 := none
        Optional2 := none
        Optional3 := none
        Optional4 := none
        Optional5 := none
        IsTest := env.IS_TEST
        HashCheck := none }
    .ok { p with HashCheck := some (computePostHash sha512hex env.PRIVATE_KEY p) }

end OzowB

/-! ## Ozow routes (src/src/routes/ozow.ts) -/

/-- The OzowOrder document fields the notify/redirect handlers touch. -/
structure OzowOrderRec where
  m_payment_id : Str
  status : Str
  gateway_txn_id : Option Str
  gateway_status : Option Str
deriving DecidableEq

/-- The order update performed by the `/api/ozow/notify` (and `/redirect`)
handler once the hash is valid and the order found: record the gateway
transaction id and raw status, set `paid` on `Complete`, set `cancelled` on
`Cancelled`, `Error` or `Abandoned`, leave the status alone otherwise. -/
def ozowApplyNotify (order : OzowOrderRec) (n : OzowResponse) : OzowOrderRec :=
  let o := { order with gateway_txn_id := some n.TransactionId,
                        gateway_status := some n.Status }
  let o := if n.Status == chars "Complete" then { o with status := chars "paid" } else o
  if n.Status == chars "Cancelled" || n.Status == chars "Error" || n.Status == chars "Abandoned"
  then { o with status := chars "cancelled" } else o

/-- The `/api/ozow/notify` handler: always acknowledges with HTTP 200;
`none` in the second component means no order was written. -/
def ozowNotify (sha512hex : Str → Str) (hashKey : Str)
    (lookup : Str → Option OzowOrderRec) (n : OzowResponse) : Nat × Option OzowOrderRec :=
  if validateResponseHash sha512hex hashKey n = false then (200, none)
  else
    match lookup n.TransactionReference with
    | some order => (200, some (ozowApplyNotify order n))
    | none => (200, none)

/-- A cart line item as the Ozow create route reads it
(`price` in cents, both client-supplied). -/
structure Item where
  title : Str
  price : Int
  quantity : Int
deriving DecidableEq

/-- `computeTotals` of routes/ozow.ts: subtotal is the sum of
`price * quantity`; discounts are disabled, so the discount is 0. -/
def computeTotalsSubtotal (items : List Item) : Int :=
  items.foldl (fun t i => t + i.price * i.quantity) 0

/-- Substring test, modelling `String.prototype.includes`. -/
def hasSubstr (pat : Str) : Str → Bool
  | [] => pat.isPrefixOf []
  | c :: t => pat.isPrefixOf (c :: t) || hasSubstr pat t

/-- `items?.some(i => i.title?.toLowerCase().includes("lounger"))`. -/
def hasLounger (items : List Item) : Bool :=
  items.any (fun i => hasSubstr (chars "lounger") (jsToLower i.title))

/-- The client request body of `/api/ozow/create` (cents fields already
coerced to numbers, as the handler's unary `+` does). -/
structure OzowCreateReq where
  items : List Item
  subtotal_cents : Int
  shipping_cents : Int
  total_cents : Int
  shippingType : Str
  shippingPhone : Str
  shippingAddress1 : Str
  shippingCity : Str
  shippingProvince : Str
  shippingPostalCode : Str
  customerEmail : Option Str
deriving DecidableEq

/-- The server-side shipping fee table of `/api/ozow/create`:
0 for pickup, else R1000 (100000 cents) if some item title contains
"lounger" (case-insensitively), else R250 (25000 cents) for a non-empty
item list, else 0. -/
def expectedShip (req : OzowCreateReq) : Int :=
  if req.shippingType == chars "pickup" then 0
  else if req.items ≠ [] then (if hasLounger req.items then 100000 else 25000)
  else 0

/-- The order document `/api/ozow/create` persists. -/
structure OzowCreateOrder where
  m_payment_id : Str
  status : Str
  subtotal_cents : Int
  shipping_cents : Int
  discount_cents : Int
  total_cents : Int
deriving DecidableEq

/-- The `/api/ozow/create` handler up to the response payload.  `mRef` models
the `ORD-${Date.now()}` reference and `oidSuffix` the tail of the Mongo id
used in the bank reference; both are generated outside the embedded logic.
The config check mirrors the route's own env-var validation (site code, API
key, four URLs). -/
def ozowCreate (sha512hex : Str → Str) (env : OzowEnv) (req : OzowCreateReq)
    (mRef oidSuffix oid : Str) : Except String (OzowCreateOrder × OzowPost) :=
  if env.SITE = [] ∨ env.API_KEY = [] ∨ env.SUCCESS = [] ∨ env.CANCEL = [] ∨
     env.ERROR = [] ∨ env.NOTIFY = [] then
    .error "SERVER_CONFIG_ERROR"
  else if expectedShip req ≠ req.shipping_cents then
    .error "BAD_SHIPPING"
  else if ¬ req.shippingType = chars "pickup" ∧ jsTrim req.shippingPhone = [] then
    .error "MISSING_PHONE"
  else if ¬ req.shippingType = chars "pickup" ∧ jsTrim req.shippingAddress1 = [] then
    .error "MISSING_ADDRESS1"
  else if ¬ req.shippingType = chars "pickup" ∧ jsTrim req.shippingCity = [] then
    .error "MISSING_CITY"
  else if ¬ req.shippingType = chars "pickup" ∧ jsTrim req.shippingProvince = [] then
    .error "MISSING_PROVINCE"
  else if ¬ req.shippingType = chars "pickup" ∧ jsTrim req.shippingPostalCode = [] then
    .error "MISSING_POSTALCODE"
  else
    let subtotal := computeTotalsSubtotal req.items
    let discount : Int := 0
    let expectedTotal := subtotal + expectedShip req - discount
    if subtotal ≠ req.subtotal_cents ∨ expectedTotal ≠ req.total_cents then
      .error "TOTAL_MISMATCH"
    else
      let order : OzowCreateOrder :=
        { m_payment_id := mRef
          status := chars "pending"
          subtotal_cents := subtotal
          shipping_cents := expectedShip req
          discount_cents := discount
          total_cents := expectedTotal }
      match OzowA.buildPost sha512hex env
        { amountStr := centsToAmountStr expectedTotal
          transactionRef := mRef
          bankRef := chars "POOLBAGS-" ++ oidSuffix
          customerEmail := req.customerEmail
          Optional1 := some oid
          Optional2 := none
          Optional3 := none
          Optional4 := none
          Optional5 := none } with
      | .ok post => .ok (order, post)
      | .error e => .error e

/-! ## PayFast codec and builder (src/src/utils/email.ts, PayFast half;
the file also serves routes importing it as `utils/payfast`)

Payloads are association lists `List (Str × Str)` modelling the duck-typed
JavaScript objects; `computeSignature` iterates the object's keys, so the
model sorts whatever keys are present, exactly as `Object.keys(..).sort()`. -/

/-- PayFast configuration from the environment (`ENV` in the codec file);
`PASSPHRASE` defaults to the empty string. -/
structure PFEnv where
  MERCHANT_ID : Str
  MERCHANT_KEY : Str
  PASSPHRASE : Str
  RETURN_URL : Str
  CANCEL_URL : Str
  NOTIFY_URL : Str
deriving DecidableEq

/-- The sorted `key=urlEncode(value)` parameter string (spaces as `+`)
over the given fields. -/
def paramString (data : List (Str × Str)) : Str :=
  joinAmp ((sortPairs data).map (fun kv => kv.1 ++ '=' :: pfEncode kv.2))

/-- The string `computeSignature` hashes: the parameter string over all
fields except `signature`, with `&passphrase=encodeURIComponent(passphrase)`
appended when a passphrase is configured (note: the passphrase value is NOT
run through the `%20`→`+` replacement). -/
def stringToHash (passphrase : Str) (data : List (Str × Str)) : Str :=
  let ps := paramString (dropSignature data)
  if passphrase ≠ [] then ps ++ chars "&passphrase=" ++ encodeURIComponent passphrase
  else ps

/-- Modelled from the spec: the hash preimage as §4.1 describes it, with the
passphrase also encoded space-as-plus (`urlEncode`).  Kept only to compare
the implemented `stringToHash` against the spec's words. -/
def stringToHashSpec (passphrase : Str) (data : List (Str × Str)) : Str :=
  let ps := paramString (dropSignature data)
  if passphrase ≠ [] then ps ++ chars "&passphrase=" ++ pfEncode passphrase
  else ps

/-- `computeSignature` of the PayFast codec: MD5 hex of `stringToHash`. -/
def computeSignature (md5hex : Str → Str) (passphrase : Str)
    (data : List (Str × Str)) : Str :=
  md5hex (stringToHash passphrase data)

/-- `validateSignature` of the PayFast codec: recompute and compare
(case-sensitive string equality). -/
def validateSignature (md5hex : Str → Str) (passphrase : Str)
    (data : List (Str × Str)) (receivedSignature : Str) : Bool :=
  computeSignature md5hex passphrase data == receivedSignature

/-- An optional payload entry guarded by JS truthiness
(`if (v) post.k = v`): present only when defined and non-empty. -/
def optEntry (k : String) (v : Option Str) : List (Str × Str) :=
  match v with
  | some s => if s ≠ [] then [(chars k, s)] else []
  | none => []

/-- Input of the PayFast `buildPost`; `amountStr` stands for
`input.amountRands.toFixed(2)`. -/
structure PFBuildInput where
  amountStr : Str
  paymentId : Str
  itemName : Str
  itemDescription : Option Str
  customerEmail : Option Str
  customerFirstName : Option Str
  customerLastName : Option Str
  customerCell : Option Str
  customStr1 : Option Str
  customStr2 : Option Str
  customStr3 : Option Str
  customStr4 : Option Str
  customStr5 : Option Str
deriving DecidableEq

namespace PayFast

/-- `buildPost` of the PayFast codec: fails fast when a required configured
value is missing, otherwise assembles the payload (required fields, then the
truthiness-guarded optional fields) and appends the computed `signature`. -/
def buildPost (md5hex : Str → Str) (env : PFEnv) (input : PFBuildInput) :
    Except String (List (Str × Str)) :=
  if env.MERCHANT_ID = [] then .error "PAYFAST_MERCHANT_ID is not configured"
  else if env.MERCHANT_KEY = [] then .error "PAYFAST_MERCHANT_KEY is not configured"
  else if env.RETURN_URL = [] then .error "PAYFAST_RETURN_URL is not configured"
  else if env.CANCEL_URL = [] then .error "PAYFAST_CANCEL_URL is not configured"
  else if env.NOTIFY_URL = [] then .error "PAYFAST_NOTIFY_URL is not configured"
  else
    let base : List (Str × Str) :=
      [(chars "merchant_id", env.MERCHANT_ID),
       (chars "merchant_key", env.MERCHANT_KEY),
       (chars "return_url", env.RETURN_URL),
       (chars "cancel_url", env.CANCEL_URL),
       (chars "notify_url", env.NOTIFY_URL),
       (chars "m_payment_id", input.paymentId),
       (chars "amount", input.amountStr),
       (chars "item_name", input.itemName)] ++
      optEntry "item_description" input.itemDescription ++
      (match input.customerEmail with
       | some e =>
         if e ≠ [] then
           [(chars "email_address", e), (chars "email_confirmation", chars "1"),
            (chars "confirmation_address", e)]
         else []
       | none => []) ++
      optEntry "name_first" input.customerFirstName ++
      optEntry "name_last" input.customerLastName ++
      optEntry "cell_number" input.customerCell ++
      optEntry "custom_str1" input.customStr1 ++
      optEntry "custom_str2" input.customStr2 ++
      optEntry "custom_str3" input.customStr3 ++
      optEntry "custom_str4" input.customStr4 ++
      optEntry "custom_str5" input.customStr5
    .ok (base ++ [(chars "signature", computeSignature md5hex env.PASSPHRASE base)])

end PayFast

/-! ## PayFast ITN reconcilers

Two reconcilers exist: `src/src/routes/payfast-itn.ts` (`POST /itn`, with
idempotency guard and amount check) and `src/src/routes/payfast.ts`
(`POST /itn`, with neither). -/

/-- `verifySignature` local to routes/payfast-itn.ts: drop `signature`,
sort keys, `key=urlEncode(value)` with spaces as `+`, join with `&`,
MD5-hex, compare — never any passphrase. -/
def itnVerifySignature (md5hex : Str → Str) (data : List (Str × Str))
    (receivedSignature : Str) : Bool :=
  md5hex (paramString (dropSignature data)) == receivedSignature

/-- The PayfastOrder fields the `payfast-itn` handler reads and writes
(`totals.grandTotal` is a decimal rand amount; `paymentPfId` is
`order.payment?.pfData?.pf_payment_id`). -/
structure ItnOrder where
  number : Str
  status : Str
  grandTotal : Dec
  paymentPfId : Option Str
  result : Option Str
deriving DecidableEq

/-- Status application of routes/payfast-itn.ts: `COMPLETE` marks the order
paid; `CANCELLED` and `FAILED` both mark it cancelled; any other raw status
only records the payment result. -/
def itnApply (order : ItnOrder) (payment_status : Str) (pfId : Option Str) : ItnOrder :=
  if payment_status == chars "COMPLETE" then
    { order with status := chars "paid", paymentPfId := pfId, result := some payment_status }
  else if payment_status == chars "CANCELLED" || payment_status == chars "FAILED" then
    { order with status := chars "cancelled", paymentPfId := pfId, result := some payment_status }
  else
    { order with paymentPfId := pfId, result := some payment_status }

/-- The idempotency guard of routes/payfast-itn.ts: skip (200 OK, no write)
when the order is already `paid`, or when the already-recorded
`pf_payment_id` is truthy and equals the incoming truthy one. -/
def itnDuplicate (order : ItnOrder) (data : List (Str × Str)) : Bool :=
  order.status == chars "paid" ||
    (match order.paymentPfId with
     | some e => ¬ e = [] && ¬ getStr data "pf_payment_id" = [] && e == getStr data "pf_payment_id"
     | none => false)

/-- `POST /itn` of routes/payfast-itn.ts.  Returns the HTTP status and, when
a write happened, the saved order.  Steps: required-field presence,
signature, lookup, idempotency guard, amount check (tolerance 0.01,
vacuously passed when `parseFloat` yields NaN), then the status mapping. -/
def itnHandler (md5hex : Str → Str) (lookup : Str → Option ItnOrder)
    (data : List (Str × Str)) : Nat × Option ItnOrder :=
  let signature := getStr data "signature"
  let m_payment_id := getStr data "m_payment_id"
  let payment_status := getStr data "payment_status"
  let amount_gross := getStr data "amount_gross"
  if signature = [] ∨ m_payment_id = [] ∨ payment_status = [] ∨ amount_gross = [] then
    (400, none)
  else if ¬ itnVerifySignature md5hex data signature then (400, none)
  else
    match lookup m_payment_id with
    | none => (404, none)
    | some order =>
      if itnDuplicate order data then (200, none)
      else
        let amountMismatch :=
          match parseFloatDec amount_gross with
          | some received => absDiffGtCent (round2 order.grandTotal) received
          | none => false
        if amountMismatch then (400, none)
        else (200, some (itnApply order payment_status (getField data "pf_payment_id")))

/-- The PayfastOrder fields the routes/payfast.ts ITN handler touches, plus
the stored `total_cents` (present on the document and read by the status
endpoint, but never consulted by this ITN handler). -/
structure PF2Order where
  m_payment_id : Str
  status : Str
  gateway_txn_id : Option Str
  gateway_status : Option Str
  payment_status : Option Str
  total_cents : Int
deriving DecidableEq

/-- Status application of the routes/payfast.ts ITN handler: `COMPLETE` →
paid, `CANCELLED` → cancelled, `FAILED` → error; anything else only records
the lower-cased raw status. -/
def pfItn2Apply (order : PF2Order) (pf_payment_id payment_status : Str) : PF2Order :=
  let o := { order with gateway_txn_id := some pf_payment_id,
                        payment_status := some payment_status }
  if payment_status == chars "COMPLETE" then
    { o with status := chars "paid", gateway_status := some (chars "completed") }
  else if payment_status == chars "CANCELLED" then
    { o with status := chars "cancelled", gateway_status := some (chars "cancelled") }
  else if payment_status == chars "FAILED" then
    { o with status := chars "error", gateway_status := some (chars "failed") }
  else
    { o with gateway_status := some (jsToLower payment_status) }

/-- `POST /itn` of routes/payfast.ts: validate the signature (via the codec's
`validateSignature`, over the body minus `signature`), find the order, apply
the status mapping unconditionally — no idempotency guard, no amount
comparison. -/
def pfItn2Handler (md5hex : Str → Str) (passphrase : Str)
    (lookup : Str → Option PF2Order) (data : List (Str × Str)) : Nat × Option PF2Order :=
  let signature := getStr data "signature"
  let dataToValidate := dropSignature data
  if ¬ validateSignature md5hex passphrase dataToValidate signature then (400, none)
  else
    match lookup (getStr data "m_payment_id") with
    | none => (404, none)
    | some order =>
      (200, some (pfItn2Apply order (getStr data "pf_payment_id") (getStr data "payment_status")))

/-! ## PayFast create route (src/src/routes/payfast.ts, `POST /create`) -/

/-- The create request body of routes/payfast.ts (`total` etc. are the
client's numbers in cents; `none` models an absent field). -/
structure PFCreateReq where
  items : List Item
  subtotal : Option Int
  shipping : Option Int
  discount : Option Int
  total : Option Int
  customerEmail : Option Str
  customerFirstName : Option Str
  customerLastName : Option Str
deriving DecidableEq

/-- The order document `POST /create` persists. -/
structure PFCreateOrder where
  m_payment_id : Str
  status : Str
  subtotal_cents : Int
  shipping_cents : Int
  discount_cents : Int
  total_cents : Int
deriving DecidableEq

/-- `POST /create` of routes/payfast.ts: persists the order with the
client-supplied totals and builds the PayFast payload with
`amountRands = (total || 0) / 100` — the client's `total` is used directly,
nothing is recomputed from the items.  `paymentId` and `oid` model the
generated reference and Mongo id. -/
def payfastCreate (md5hex : Str → Str) (env : PFEnv) (req : PFCreateReq)
    (paymentId oid : Str) : Except String (PFCreateOrder × List (Str × Str)) :=
  let total := req.total.getD 0
  let order : PFCreateOrder :=
    { m_payment_id := paymentId
      status := chars "pending"
      subtotal_cents := req.subtotal.getD 0
      shipping_cents := req.shipping.getD 0
      discount_cents := req.discount.getD 0
      total_cents := total }
  let itemName :=
    if req.items ≠ [] then
      natDigits req.items.length ++ chars " item" ++
        (if req.items.length > 1 then chars "s" else []) ++ chars " from Pool Beanbags"
    else chars "Pool Beanbags Order"
  let itemDescription :=
    if req.items ≠ [] then
      some (List.intercalate (chars ", ")
        (req.items.map (fun i => intDigits i.quantity ++ chars "x " ++ i.title)))
    else none
  match PayFast.buildPost md5hex env
    { amountStr := centsToAmountStr total
      paymentId := paymentId
      itemName := itemName
      itemDescription := itemDescription
      customerEmail := req.customerEmail
      customerFirstName := req.customerFirstName
      customerLastName := req.customerLastName
      customerCell := none
      customStr1 := some oid
      customStr2 := none
      customStr3 := none
      customStr4 := none
      customStr5 := none } with
  | .ok post => .ok (order, post)
  | .error e => .error e

/-! ## Concrete fixtures used by witnesses and counterexamples -/

deriving instance DecidableEq for Except

/-- Identity stand-in for a digest function in witnesses. -/
def idH : Str → Str := fun s => s

/-- Constant stand-in for a digest function in witnesses. -/
def constH (out : String) : Str → Str := fun _ => chars out

/-- A fully configured Ozow environment. -/
def fxOzowEnv : OzowEnv :=
  { SITE := chars "site", COUNTRY := chars "ZA", CURRENCY := chars "ZAR",
    PRIVATE_KEY := chars "priv", API_KEY := chars "api",
    SUCCESS := chars "su", CANCEL := chars "ca", ERROR := chars "er",
    NOTIFY := chars "no", IS_TEST := chars "true" }

/-- The same environment with the site code unset. -/
def fxOzowEnvMissing : OzowEnv := { fxOzowEnv with SITE := [] }

/-- A concrete Ozow build input. -/
def fxOzowInput : OzowBuildInput :=
  { amountStr := chars "100.00", transactionRef := chars "ORD-1",
    bankRef := chars "BANK", customerEmail := none,
    Optional1 := none, Optional2 := none, Optional3 := none,
    Optional4 := none, Optional5 := none }

/-- A concrete outbound Ozow payload with whitespace-free fields. -/
def fxPost : OzowPost :=
  { SiteCode := chars "site", CountryCode := chars "ZA", CurrencyCode := chars "ZAR",
    Amount := chars "100.00", TransactionReference := chars "ORD-1",
    BankReference := chars "BANK",
    CancelUrl := some (chars "ca"), ErrorUrl := some (chars "er"),
    SuccessUrl := some (chars "su"), NotifyUrl := some (chars "no"),
    Customer := none, Optional1 := none, Optional2 := none, Optional3 := none,
    Optional4 := none, Optional5 := none,
    IsTest := chars "true", HashCheck := none }

/-- `fxPost` with different customer and optional fields. -/
def fxPost2 : OzowPost :=
  { fxPost with Customer := some (chars "x@y.z"), Optional1 := some (chars "o1"),
                Optional5 := some (chars "o5") }

/-- A concrete inbound Ozow response. -/
def fxResp : OzowResponse :=
  { SiteCode := chars "site", TransactionId := chars "T1",
    TransactionReference := chars "ORD-1", Amount := chars "100.00",
    Status := chars "Complete",
    Optional1 := none, Optional2 := none, Optional3 := none,
    Optional4 := none, Optional5 := none,
    CurrencyCode := chars "ZAR", IsTest := chars "true", StatusMessage := none,
    Hash := chars "ab" }

/-- A `Cancelled` response whose hash matches the constant digest `"aa"`. -/
def fxRespCancel : OzowResponse :=
  { fxResp with Status := chars "Cancelled", Hash := chars "aa" }

/-- An `Error` response. -/
def fxRespError : OzowResponse :=
  { fxResp with Status := chars "Error", Hash := chars "aa" }

/-- An already-paid Ozow order. -/
def fxPaidOzowOrder : OzowOrderRec :=
  { m_payment_id := chars "ORD-1", status := chars "paid",
    gateway_txn_id := none, gateway_status := none }

/-- A pending Ozow order. -/
def fxPendingOzowOrder : OzowOrderRec :=
  { fxPaidOzowOrder with status := chars "pending" }

/-- A store in which `ORD-1` is already paid. -/
def fxLookupOzowPaid : Str → Option OzowOrderRec :=
  fun ref => if ref = chars "ORD-1" then some fxPaidOzowOrder else none

/-- A fully configured PayFast environment without passphrase. -/
def fxPFEnv : PFEnv :=
  { MERCHANT_ID := chars "m", MERCHANT_KEY := chars "k", PASSPHRASE := [],
    RETURN_URL := chars "r", CANCEL_URL := chars "c", NOTIFY_URL := chars "n" }

/-- The same environment with the merchant id unset. -/
def fxPFEnvMissing : PFEnv := { fxPFEnv with MERCHANT_ID := [] }

/-- A concrete PayFast build input. -/
def fxPFInput : PFBuildInput :=
  { amountStr := chars "1.00", paymentId := chars "P1", itemName := chars "Box",
    itemDescription := none, customerEmail := none, customerFirstName := none,
    customerLastName := none, customerCell := none,
    customStr1 := none, customStr2 := none, customStr3 := none,
    customStr4 := none, customStr5 := none }

/-- A pending PayfastOrder for the payfast-itn reconciler (total R529.00). -/
def fxItnOrderPending : ItnOrder :=
  { number := chars "N1", status := chars "pending", grandTotal := ⟨529, 0⟩,
    paymentPfId := none, result := none }

/-- The same order already paid. -/
def fxItnOrderPaid : ItnOrder := { fxItnOrderPending with status := chars "paid" }

/-- A concrete ITN body whose signature matches the constant digest `"sg"`. -/
def fxItnData : List (Str × Str) :=
  [(chars "m_payment_id", chars "N1"), (chars "pf_payment_id", chars "PF1"),
   (chars "payment_status", chars "COMPLETE"),
   (chars "amount_gross", chars "529.00"), (chars "signature", chars "sg")]

/-- The same body declaring a wildly different gross amount. -/
def fxItnDataBadAmount : List (Str × Str) :=
  [(chars "m_payment_id", chars "N1"), (chars "pf_payment_id", chars "PF1"),
   (chars "payment_status", chars "COMPLETE"),
   (chars "amount_gross", chars "9999.99"), (chars "signature", chars "sg")]

/-- A store in which `N1` is already paid (payfast-itn model). -/
def fxLookupItnPaid : Str → Option ItnOrder :=
  fun n => if n = chars "N1" then some fxItnOrderPaid else none

/-- A store in which `N1` is pending (payfast-itn model). -/
def fxLookupItnPending : Str → Option ItnOrder :=
  fun n => if n = chars "N1" then some fxItnOrderPending else none

/-- A pending order for the routes/payfast.ts ITN handler, whose stored total
is R100.00 (10000 cents). -/
def fxPF2Pending : PF2Order :=
  { m_payment_id := chars "N1", status := chars "pending",
    gateway_txn_id := none, gateway_status := none, payment_status := none,
    total_cents := 10000 }

/-- A store in which `N1` is pending (routes/payfast.ts model). -/
def fxLookupPF2Pending : Str → Option PF2Order :=
  fun n => if n = chars "N1" then some fxPF2Pending else none

/-- A create request whose client `total` (999999 cents) has nothing to do
with its single 100-cent line item. -/
def fxPFCreateReq : PFCreateReq :=
  { items := [⟨chars "Bean", 100, 1⟩], subtotal := some 100, shipping := some 0,
    discount := none, total := some 999999, customerEmail := none,
    customerFirstName := none, customerLastName := none }

/-- The `amount` field of a successful create result. -/
def amountOfResult (r : Except String (PFCreateOrder × List (Str × Str))) : Option Str :=
  match r with
  | .ok x => getField x.2 "amount"
  | .error _ => none

/-- An Ozow create request choosing pickup but declaring a non-zero
shipping fee. -/
def fxOzowCreateReqBadShip : OzowCreateReq :=
  { items := [⟨chars "Bean", 100, 1⟩], subtotal_cents := 100,
    shipping_cents := 5, total_cents := 105, shippingType := chars "pickup",
    shippingPhone := [], shippingAddress1 := [], shippingCity := [],
    shippingProvince := [], shippingPostalCode := [], customerEmail := none }

/-- A well-formed pickup create request (`total = subtotal + 0`). -/
def fxOzowCreateReqOk : OzowCreateReq :=
  { fxOzowCreateReqBadShip with shipping_cents := 0, total_cents := 100 }

/-- The order `ozowCreate` persists for `fxOzowCreateReqOk`. -/
def fxOzowOkOrder : OzowCreateOrder :=
  { m_payment_id := chars "M", status := chars "pending",
    subtotal_cents := 100, shipping_cents := 0, discount_cents := 0,
    total_cents := 100 }

/-- The payload `ozowCreate` builds for `fxOzowCreateReqOk`, before hashing. -/
def fxOzowOkPostBase : OzowPost :=
  { SiteCode := chars "site", CountryCode := chars "ZA", CurrencyCode := chars "ZAR",
    Amount := chars "1.00", TransactionReference := chars "M",
    BankReference := chars "POOLBAGS-s",
    CancelUrl := some (chars "ca"), ErrorUrl := some (chars "er"),
    SuccessUrl := some (chars "su"), NotifyUrl := some (chars "no"),
    Customer := none, Optional1 := some (chars "o"), Optional2 := none,
    Optional3 := none, Optional4 := none, Optional5 := none,
    IsTest := chars "true", HashCheck := none }

/-- The same payload with its hash attached (identity digest stand-in). -/
def fxOzowOkPost : OzowPost :=
  { fxOzowOkPostBase with
    HashCheck := some (computePostHash idH (chars "api") fxOzowOkPostBase) }

/-- The order `payfastCreate` persists for `fxPFCreateReq`. -/
def fxPFCreateOrder : PFCreateOrder :=
  { m_payment_id := chars "P1", status := chars "pending",
    subtotal_cents := 100, shipping_cents := 0, discount_cents := 0,
    total_cents := 999999 }

/-- The payload `payfastCreate` builds for `fxPFCreateReq` under the constant
digest `"md"`. -/
def fxPFCreatePost : List (Str × Str) :=
  [(chars "merchant_id", chars "m"), (chars "merchant_key", chars "k"),
   (chars "return_url", chars "r"), (chars "cancel_url", chars "c"),
   (chars "notify_url", chars "n"), (chars "m_payment_id", chars "P1"),
   (chars "amount", chars "9999.99"),
   (chars "item_name", chars "1 item from Pool Beanbags"),
   (chars "item_description", chars "1x Bean"),
   (chars "custom_str1", chars "O1"),
   (chars "signature", chars "md")]

/-! ## Helper lemmas -/

/-- Leading-zero stripping ignores any block of prepended zeros. -/
theorem stripLeadingZeros_replicate_append (k : Nat) (x : Str) :
    stripLeadingZeros (List.replicate k '0' ++ x) = stripLeadingZeros x := by
  induction k with
  | zero => simp
  | succ n ih =>
    simp only [List.replicate_succ, List.cons_append, stripLeadingZeros,
      List.dropWhile_cons] at *
    simp [ih]

/-- Lower-casing a block of zeros is the identity. -/
theorem jsToLower_replicate_zero_append (k : Nat) (x : Str) :
    jsToLower (List.replicate k '0' ++ x) = List.replicate k '0' ++ jsToLower x := by
  have h0 : Char.toLower '0' = '0' := by decide
  simp [jsToLower, List.map_append, List.map_replicate, h0]

/-! ## Claim theorems -/

/-- C1: the Ozow outbound post hash equals the digest of the lower-cased
concatenation, in the fixed order, of the 11 core fields (site code, country
code, currency code, amount, transaction reference, bank reference, cancel
URL, error URL, success URL, notify URL, is-test flag) with the configured
hash key appended (the first file revision passes the API key, the second
the private key — the `hashKey` argument); and the `Customer` and
`Optional1`-`Optional5` fields are not part of the preimage, so payloads
agreeing on the 11 core fields produce the same digest.  The first conjunct
assumes the fields free of surrounding whitespace, since `computePostHash`
trims each field. -/
theorem ozow_post_hash_fixed_order_and_field_set :
    (∀ (H : Str → Str) (hashKey : Str) (p : OzowPost),
      jsTrim p.SiteCode = p.SiteCode → jsTrim p.CountryCode = p.CountryCode →
      jsTrim p.CurrencyCode = p.CurrencyCode → jsTrim p.Amount = p.Amount →
      jsTrim p.TransactionReference = p.TransactionReference →
      jsTrim p.BankReference = p.BankReference →
      jsTrim (p.CancelUrl.getD []) = p.CancelUrl.getD [] →
      jsTrim (p.ErrorUrl.getD []) = p.ErrorUrl.getD [] →
      jsTrim (p.SuccessUrl.getD []) = p.SuccessUrl.getD [] →
      jsTrim (p.NotifyUrl.getD []) = p.NotifyUrl.getD [] →
      jsTrim p.IsTest = p.IsTest →
      computePostHash H hashKey p =
        H (jsToLower (p.SiteCode ++ p.CountryCode ++ p.CurrencyCode ++ p.Amount ++
          p.TransactionReference ++ p.BankReference ++ p.CancelUrl.getD [] ++
          p.ErrorUrl.getD [] ++ p.SuccessUrl.getD [] ++ p.NotifyUrl.getD [] ++
          p.IsTest ++ hashKey))) ∧
    (∀ (H : Str → Str) (hashKey : Str) (p q : OzowPost),
      p.SiteCode = q.SiteCode → p.CountryCode = q.CountryCode →
      p.CurrencyCode = q.CurrencyCode → p.Amount = q.Amount →
      p.TransactionReference = q.TransactionReference →
      p.BankReference = q.BankReference → p.CancelUrl = q.CancelUrl →
      p.ErrorUrl = q.ErrorUrl → p.SuccessUrl = q.SuccessUrl →
      p.NotifyUrl = q.NotifyUrl → p.IsTest = q.IsTest →
      computePostHash H hashKey p = computePostHash H hashKey q) := by
  constructor
  · intro H hashKey p h1 h2 h3 h4 h5 h6 h7 h8 h9 h10 h11
    unfold computePostHash postHashParts safe
    simp only [Option.getD_some]
    rw [h1, h2, h3, h4, h5, h6, h7, h8, h9, h10, h11]
  · intro H hashKey p q e1 e2 e3 e4 e5 e6 e7 e8 e9 e10 e11
    unfold computePostHash postHashParts safe
    rw [e1, e2, e3, e4, e5, e6, e7, e8, e9, e10, e11]

/-- Witness for C1 at a concrete payload: the digest equals the lower-cased
ordered concatenation, and adding customer/optional fields leaves it
unchanged. -/
theorem ozow_post_hash_fixed_order_and_field_set_witness :
    computePostHash idH (chars "key") fxPost =
      idH (jsToLower (fxPost.SiteCode ++ fxPost.CountryCode ++ fxPost.CurrencyCode ++
        fxPost.Amount ++ fxPost.TransactionReference ++ fxPost.BankReference ++
        fxPost.CancelUrl.getD [] ++ fxPost.ErrorUrl.getD [] ++ fxPost.SuccessUrl.getD [] ++
        fxPost.NotifyUrl.getD [] ++ fxPost.IsTest ++ chars "key")) ∧
    computePostHash idH (chars "key") fxPost = computePostHash idH (chars "key") fxPost2 :=
  ⟨ozow_post_hash_fixed_order_and_field_set.1 idH (chars "key") fxPost
      (by decide) (by decide) (by decide) (by decide) (by decide) (by decide)
      (by decide) (by decide) (by decide) (by decide) (by decide),
   ozow_post_hash_fixed_order_and_field_set.2 idH (chars "key") fxPost fxPost2
      rfl rfl rfl rfl rfl rfl rfl rfl rfl rfl rfl⟩

/-- C2: round-trip — a signature produced by the PayFast codec's
`computeSignature` over a field set always passes `validateSignature` over
the same field set, and an Ozow notification whose `Hash` field carries the
digest of its own response preimage always passes `validateResponseHash`
(the digest hypothesis `jsToLower h = h` records that hex digests are
lower-case). -/
theorem gateway_signature_roundtrip :
    (∀ (md5hex : Str → Str) (passphrase : Str) (data : List (Str × Str)),
      validateSignature md5hex passphrase data (computeSignature md5hex passphrase data) = true) ∧
    (∀ (sha512hex : Str → Str) (hashKey : Str) (r : OzowResponse) (h : Str),
      h = sha512hex (jsToLower (responsePreimage hashKey r)) →
      jsToLower h = h →
      validateResponseHash sha512hex hashKey { r with Hash := h } = true) := by
  constructor
  · intro md5hex passphrase data
    simp [validateSignature]
  · intro sha512hex hashKey r h hh hlow
    subst hh
    unfold validateResponseHash
    have hpre : responsePreimage hashKey
        { r with Hash := sha512hex (jsToLower (responsePreimage hashKey r)) } =
        responsePreimage hashKey r := rfl
    rw [hpre]
    show (stripLeadingZeros (sha512hex (jsToLower (responsePreimage hashKey r))) ==
      stripLeadingZeros (jsToLower (sha512hex (jsToLower (responsePreimage hashKey r))))) = true
    rw [hlow]
    simp

/-- Witness for C2 at a concrete field set and a concrete digest stand-in. -/
theorem gateway_signature_roundtrip_witness :
    validateSignature (constH "md") [] fxItnData (computeSignature (constH "md") [] fxItnData) = true ∧
    validateResponseHash (constH "ab") (chars "key") fxResp = true :=
  ⟨gateway_signature_roundtrip.1 (constH "md") [] fxItnData,
   gateway_signature_roundtrip.2 (constH "ab") (chars "key") fxResp (chars "ab") rfl (by decide)⟩

/-- C3: Ozow inbound verification accepts exactly when the computed digest
and the lower-cased received hash agree after leading-zero stripping; hence
a received hash with a block of leading zeros and the same hash without them
verify identically on the same notification. -/
theorem ozow_response_hash_leading_zero_stripping :
    (∀ (H : Str → Str) (hashKey : Str) (r : OzowResponse),
      validateResponseHash H hashKey r = true ↔
        stripLeadingZeros (H (jsToLower (responsePreimage hashKey r))) =
          stripLeadingZeros (jsToLower r.Hash)) ∧
    (∀ (H : Str → Str) (hashKey : Str) (r : OzowResponse) (k : Nat) (h : Str),
      validateResponseHash H hashKey { r with Hash := List.replicate k '0' ++ h } =
        validateResponseHash H hashKey { r with Hash := h }) := by
  constructor
  · intro H hashKey r
    unfold validateResponseHash
    exact beq_iff_eq
  · intro H hashKey r k h
    have hlow : stripLeadingZeros (jsToLower (List.replicate k '0' ++ h)) =
        stripLeadingZeros (jsToLower h) := by
      rw [jsToLower_replicate_zero_append, stripLeadingZeros_replicate_append]
    calc validateResponseHash H hashKey { r with Hash := List.replicate k '0' ++ h }
        = (stripLeadingZeros (H (jsToLower (responsePreimage hashKey r))) ==
            stripLeadingZeros (jsToLower (List.replicate k '0' ++ h))) := rfl
      _ = (stripLeadingZeros (H (jsToLower (responsePreimage hashKey r))) ==
            stripLeadingZeros (jsToLower h)) := by rw [hlow]
      _ = validateResponseHash H hashKey { r with Hash := h } := rfl

/-- C4 counterexample: with a passphrase containing a space, the string
`computeSignature` hashes ends in `passphrase=a%20b`, not `passphrase=a+b` —
the passphrase is appended via plain `encodeURIComponent`, without the
space-as-plus substitution applied to ordinary values, so the claim's
preimage differs from the implemented one at this input. -/
theorem payfast_passphrase_encoding_counterexample :
    stringToHash (chars "a b") [(chars "amount", chars "1.00")] =
      chars "amount=1.00&passphrase=a%20b" ∧
    stringToHashSpec (chars "a b") [(chars "amount", chars "1.00")] =
      chars "amount=1.00&passphrase=a+b" ∧
    stringToHash (chars "a b") [(chars "amount", chars "1.00")] ≠
      stringToHashSpec (chars "a b") [(chars "amount", chars "1.00")] := by
  refine ⟨by decide, by decide, by decide⟩

/-- C4 (amended): when a passphrase is configured, the string hashed by
`computeSignature` is the sorted `key=urlEncode(value)` parameter string with
`&passphrase=encodeURIComponent(passphrase)` appended — the passphrase is
percent-encoded without the `%20`→`+` replacement, so its spaces become
`%20`; when no passphrase is configured nothing is appended. -/
theorem payfast_passphrase_encoding :
    ∀ (md5hex : Str → Str) (passphrase : Str) (data : List (Str × Str)),
      (passphrase ≠ [] →
        computeSignature md5hex passphrase data =
          md5hex (paramString (dropSignature data) ++ chars "&passphrase=" ++
            encodeURIComponent passphrase)) ∧
      (passphrase = [] →
        computeSignature md5hex passphrase data =
          md5hex (paramString (dropSignature data))) := by
  intro md5hex passphrase data
  constructor
  · intro hne
    simp [computeSignature, stringToHash, hne]
  · intro he
    subst he
    simp [computeSignature, stringToHash]

/-- Witness for C4 (amended) at a concrete passphrase with a space and at the
empty passphrase. -/
theorem payfast_passphrase_encoding_witness :
    computeSignature idH (chars "a b") [(chars "amount", chars "1.00")] =
      idH (paramString (dropSignature [(chars "amount", chars "1.00")]) ++
        chars "&passphrase=" ++ encodeURIComponent (chars "a b")) ∧
    computeSignature idH [] [(chars "amount", chars "1.00")] =
      idH (paramString (dropSignature [(chars "amount", chars "1.00")])) :=
  ⟨(payfast_passphrase_encoding idH (chars "a b") [(chars "amount", chars "1.00")]).1
      (by decide),
   (payfast_passphrase_encoding idH [] [(chars "amount", chars "1.00")]).2 rfl⟩

/-- C5 counterexample: the Ozow notify handler has no terminal-state guard —
a validly-hashed `Cancelled` notification delivered for an order that is
already `paid` rewrites its status to `cancelled`, so a non-pending status is
not terminal. -/
theorem terminal_status_counterexample :
    fxPaidOzowOrder.status = chars "paid" ∧
    ozowNotify (constH "aa") (chars "key") fxLookupOzowPaid fxRespCancel =
      (200, some ({ fxPaidOzowOrder with
          status := chars "cancelled",
          gateway_txn_id := some (chars "T1"),
          gateway_status := some (chars "Cancelled") } : OzowOrderRec)) := by
  refine ⟨rfl, by decide⟩

/-- C5 (amended): only the routes/payfast-itn.ts reconciler is idempotent,
and only for the `paid` state or a repeated `pf_payment_id`: when the
required fields are present, the signature verifies and the referenced order
is already `paid`, it answers 200 without writing; the Ozow handlers and the
routes/payfast.ts ITN handler re-apply status changes unconditionally. -/
theorem itn_paid_guard :
    ∀ (md5hex : Str → Str) (lookup : Str → Option ItnOrder)
      (data : List (Str × Str)) (order : ItnOrder),
      getStr data "signature" ≠ [] → getStr data "m_payment_id" ≠ [] →
      getStr data "payment_status" ≠ [] → getStr data "amount_gross" ≠ [] →
      itnVerifySignature md5hex data (getStr data "signature") = true →
      lookup (getStr data "m_payment_id") = some order →
      order.status = chars "paid" →
      itnHandler md5hex lookup data = (200, none) := by
  intro md5hex lookup data order h1 h2 h3 h4 hsig hlook hpaid
  unfold itnHandler
  rw [if_neg (by simp [h1, h2, h3, h4])]
  rw [if_neg (by simp [hsig])]
  rw [hlook]
  have hdup : itnDuplicate order data = true := by
    simp [itnDuplicate, hpaid]
  simp [hdup]

/-- Witness for C5 (amended): a concrete duplicate `COMPLETE` notification
for an already-paid order is acknowledged with 200 and no write. -/
theorem itn_paid_guard_witness :
    itnHandler (constH "sg") fxLookupItnPaid fxItnData = (200, none) :=
  itn_paid_guard (constH "sg") fxLookupItnPaid fxItnData fxItnOrderPaid
    (by decide) (by decide) (by decide) (by decide) (by decide) (by decide) rfl

/-- C6 counterexample: the claimed mapping sends `FAILED`/`Error` to `error`,
but the Ozow handlers map `Error` to `cancelled` and the routes/payfast-itn.ts
handler maps `FAILED` to `cancelled`; only routes/payfast.ts maps `FAILED` to
`error`. -/
theorem status_mapping_counterexample :
    (ozowApplyNotify fxPendingOzowOrder fxRespError).status = chars "cancelled" ∧
    (ozowApplyNotify fxPendingOzowOrder fxRespError).status ≠ chars "error" ∧
    (itnApply fxItnOrderPending (chars "FAILED") none).status = chars "cancelled" ∧
    (itnApply fxItnOrderPending (chars "FAILED") none).status ≠ chars "error" := by
  refine ⟨by decide, by decide, by decide, by decide⟩

/-- C6 (amended): the three reconcilers map raw gateway statuses as follows,
and always record the raw status for audit.  Ozow (notify/redirect):
`Complete` → paid, `Cancelled`/`Error`/`Abandoned` → cancelled, anything else
leaves the status unchanged.  routes/payfast-itn.ts: `COMPLETE` → paid,
`CANCELLED`/`FAILED` → cancelled, anything else unchanged.
routes/payfast.ts: `COMPLETE` → paid, `CANCELLED` → cancelled, `FAILED` →
error, anything else unchanged. -/
theorem status_mapping_tables :
    (∀ (order : OzowOrderRec) (n : OzowResponse),
      (ozowApplyNotify order n).status =
        (if n.Status = chars "Complete" then chars "paid"
         else if n.Status = chars "Cancelled" ∨ n.Status = chars "Error" ∨
                 n.Status = chars "Abandoned" then chars "cancelled"
         else order.status) ∧
      (ozowApplyNotify order n).gateway_status = some n.Status) ∧
    (∀ (order : ItnOrder) (ps : Str) (pfId : Option Str),
      (itnApply order ps pfId).status =
        (if ps = chars "COMPLETE" then chars "paid"
         else if ps = chars "CANCELLED" ∨ ps = chars "FAILED" then chars "cancelled"
         else order.status) ∧
      (itnApply order ps pfId).result = some ps) ∧
    (∀ (order : PF2Order) (pfid ps : Str),
      (pfItn2Apply order pfid ps).status =
        (if ps = chars "COMPLETE" then chars "paid"
         else if ps = chars "CANCELLED" then chars "cancelled"
         else if ps = chars "FAILED" then chars "error"
         else order.status) ∧
      (pfItn2Apply order pfid ps).payment_status = some ps) := by
  refine ⟨fun order n => ⟨?_, ?_⟩, fun order ps pfId => ⟨?_, ?_⟩,
    fun order pfid ps => ⟨?_, ?_⟩⟩
  · by_cases h1 : n.Status = chars "Complete"
    · simp +decide [ozowApplyNotify, h1]
    · by_cases h2 : n.Status = chars "Cancelled"
      · simp +decide [ozowApplyNotify, h2]
      · by_cases h3 : n.Status = chars "Error"
        · simp +decide [ozowApplyNotify, h3]
        · by_cases h4 : n.Status = chars "Abandoned"
          · simp +decide [ozowApplyNotify, h4]
          · simp [ozowApplyNotify, h1, h2, h3, h4]
  · unfold ozowApplyNotify
    split <;> split <;> rfl
  · by_cases h1 : ps = chars "COMPLETE"
    · simp +decide [itnApply, h1]
    · by_cases h2 : ps = chars "CANCELLED"
      · simp +decide [itnApply, h2]
      · by_cases h3 : ps = chars "FAILED"
        · simp +decide [itnApply, h3]
        · simp [itnApply, h1, h2, h3]
  · unfold itnApply
    split <;> try split
    all_goals rfl
  · by_cases h1 : ps = chars "COMPLETE"
    · simp +decide [pfItn2Apply, h1]
    · by_cases h2 : ps = chars "CANCELLED"
      · simp +decide [pfItn2Apply, h2]
      · by_cases h3 : ps = chars "FAILED"
        · simp +decide [pfItn2Apply, h3]
        · simp [pfItn2Apply, h1, h2, h3]
  · unfold pfItn2Apply
    split <;> try split
    all_goals try split
    all_goals rfl

/-- C7 counterexample: the routes/payfast.ts ITN reconciler performs no
amount comparison — a correctly-signed `COMPLETE` notification declaring
R9999.99 against an order stored with `total_cents = 10000` (R100.00, a
mismatch far beyond the 0.01 tolerance) is accepted and marks the pending
order paid instead of leaving it pending. -/
theorem amount_mismatch_counterexample :
    fxPF2Pending.status = chars "pending" ∧
    fxPF2Pending.total_cents = 10000 ∧
    parseFloatDec (getStr fxItnDataBadAmount "amount_gross") = some ⟨999999, 2⟩ ∧
    absDiffGtCent (Dec.ofCents fxPF2Pending.total_cents) ⟨999999, 2⟩ = true ∧
    (pfItn2Handler (constH "sg") [] fxLookupPF2Pending fxItnDataBadAmount).1 = 200 ∧
    ((pfItn2Handler (constH "sg") [] fxLookupPF2Pending fxItnDataBadAmount).2.map
        (fun o => o.status)) = some (chars "paid") := by
  refine ⟨rfl, rfl, by decide, by decide, by decide, by decide⟩

/-- C7 (amended): only the routes/payfast-itn.ts reconciler enforces the
amount tolerance — past its field, signature, lookup and duplicate guards, a
declared gross amount differing from `toFixed(2)` of the stored grand total
by more than 0.01 is rejected with 400 and no state change; the
routes/payfast.ts ITN reconciler applies the status mapping with no amount
comparison at all. -/
theorem itn_amount_tolerance :
    (∀ (md5hex : Str → Str) (lookup : Str → Option ItnOrder)
       (data : List (Str × Str)) (order : ItnOrder) (received : Dec),
      getStr data "signature" ≠ [] → getStr data "m_payment_id" ≠ [] →
      getStr data "payment_status" ≠ [] → getStr data "amount_gross" ≠ [] →
      itnVerifySignature md5hex data (getStr data "signature") = true →
      lookup (getStr data "m_payment_id") = some order →
      itnDuplicate order data = false →
      parseFloatDec (getStr data "amount_gross") = some received →
      absDiffGtCent (round2 order.grandTotal) received = true →
      itnHandler md5hex lookup data = (400, none)) ∧
    (∀ (md5hex : Str → Str) (passphrase : Str) (lookup : Str → Option PF2Order)
       (data : List (Str × Str)) (order : PF2Order),
      validateSignature md5hex passphrase (dropSignature data) (getStr data "signature") = true →
      lookup (getStr data "m_payment_id") = some order →
      pfItn2Handler md5hex passphrase lookup data =
        (200, some (pfItn2Apply order (getStr data "pf_payment_id")
          (getStr data "payment_status")))) := by
  constructor
  · intro md5hex lookup data order received h1 h2 h3 h4 hsig hlook hdup hparse hmis
    simp [itnHandler, h1, h2, h3, h4, hsig, hlook, hdup, hparse, hmis]
  · intro md5hex passphrase lookup data order hsig hlook
    simp [pfItn2Handler, hsig, hlook]

/-- Witness for C7 (amended): a concrete out-of-tolerance notification is
rejected by the payfast-itn reconciler with 400 and no write, while the same
notification is applied (order marked paid) by the routes/payfast.ts
reconciler. -/
theorem itn_amount_tolerance_witness :
    itnHandler (constH "sg") fxLookupItnPending fxItnDataBadAmount = (400, none) ∧
    pfItn2Handler (constH "sg") [] fxLookupPF2Pending fxItnDataBadAmount =
      (200, some (pfItn2Apply fxPF2Pending (getStr fxItnDataBadAmount "pf_payment_id")
        (getStr fxItnDataBadAmount "payment_status"))) :=
  ⟨itn_amount_tolerance.1 (constH "sg") fxLookupItnPending fxItnDataBadAmount
      fxItnOrderPending ⟨999999, 2⟩ (by decide) (by decide) (by decide) (by decide)
      (by decide) (by decide) (by decide) (by decide) (by decide),
   itn_amount_tolerance.2 (constH "sg") [] fxLookupPF2Pending fxItnDataBadAmount
      fxPF2Pending (by decide) (by decide)⟩

/-- Unfolding step for `getField` on a cons cell. -/
theorem getField_cons (k v : Str) (t : List (Str × Str)) (key : String) :
    getField ((k, v) :: t) key = if k == chars key then some v else getField t key := by
  by_cases h : (k == chars key) = true <;> simp [getField, List.find?, h]

/-- A successful PayFast `buildPost` carries the requested amount string in
its `amount` field. -/
theorem payfast_buildPost_amount_field (H : Str → Str) (env : PFEnv)
    (input : PFBuildInput) (post : List (Str × Str)) :
    PayFast.buildPost H env input = .ok post →
    getField post "amount" = some input.amountStr := by
  intro h
  simp only [PayFast.buildPost] at h
  split_ifs at h
  simp only [Except.ok.injEq] at h
  subst h
  simp +decide [getField_cons]

/-- C8 counterexample: the routes/payfast.ts create route hands the
client-supplied `total` straight to the gateway — a request whose single
line item costs 100 cents with zero shipping but whose client `total` says
999999 cents produces a payload whose `amount` is `"9999.99"`. -/
theorem client_total_counterexample :
    computeTotalsSubtotal fxPFCreateReq.items = 100 ∧
    fxPFCreateReq.shipping = some 0 ∧
    fxPFCreateReq.total = some 999999 ∧
    amountOfResult (payfastCreate (constH "md") fxPFEnv fxPFCreateReq
      (chars "P1") (chars "O1")) = some (chars "9999.99") := by
  refine ⟨by decide, rfl, rfl, by decide⟩

/-- C8 (amended): only the Ozow create route enforces the invariant — its
persisted and gateway-sent total is the server-recomputed items subtotal
plus the fee-table shipping, and the client totals must agree or the request
is rejected; the routes/payfast.ts create route persists and sends the
client-supplied `total` directly. -/
theorem server_side_amount :
    (∀ (sha512hex : Str → Str) (env : OzowEnv) (req : OzowCreateReq)
       (mRef oidSuffix oid : Str) (order : OzowCreateOrder) (post : OzowPost),
      ozowCreate sha512hex env req mRef oidSuffix oid = .ok (order, post) →
      order.total_cents = computeTotalsSubtotal req.items + expectedShip req ∧
      post.Amount = centsToAmountStr (computeTotalsSubtotal req.items + expectedShip req) ∧
      req.total_cents = computeTotalsSubtotal req.items + expectedShip req) ∧
    (∀ (md5hex : Str → Str) (env : PFEnv) (req : PFCreateReq)
       (paymentId oid : Str) (order : PFCreateOrder) (post : List (Str × Str)),
      payfastCreate md5hex env req paymentId oid = .ok (order, post) →
      order.total_cents = req.total.getD 0 ∧
      getField post "amount" = some (centsToAmountStr (req.total.getD 0))) := by
  constructor
  · intro sha512hex env req mRef oidSuffix oid order post h
    simp only [ozowCreate] at h
    split_ifs at h with hc hs h3 h4 h5 h6 h7 ht
    push_neg at hc ht
    obtain ⟨hc1, hc2, hc3, hc4, hc5, hc6⟩ := hc
    obtain ⟨ht1, ht2⟩ := ht
    simp only [OzowA.buildPost, if_neg hc1, if_neg hc2, if_neg hc3, if_neg hc4,
      if_neg hc5, if_neg hc6, Except.ok.injEq, Prod.mk.injEq] at h
    obtain ⟨horder, hpost⟩ := h
    subst horder
    subst hpost
    refine ⟨by simp, by simp, ?_⟩
    omega
  · intro md5hex env req paymentId oid order post h
    simp only [payfastCreate] at h
    split at h
    · next post' hb =>
      simp only [Except.ok.injEq, Prod.mk.injEq] at h
      obtain ⟨horder, hpost⟩ := h
      subst horder
      subst hpost
      exact ⟨by simp, payfast_buildPost_amount_field md5hex env _ post' hb⟩
    · exact Except.noConfusion h

/-- Witness for C8 (amended): the concrete successful Ozow create for a
100-cent pickup order sends amount `"1.00"` computed server-side, and the
concrete payfast create echoes the client total 999999. -/
theorem server_side_amount_witness :
    (fxOzowOkOrder.total_cents =
       computeTotalsSubtotal fxOzowCreateReqOk.items + expectedShip fxOzowCreateReqOk ∧
     fxOzowOkPost.Amount =
       centsToAmountStr (computeTotalsSubtotal fxOzowCreateReqOk.items +
         expectedShip fxOzowCreateReqOk) ∧
     fxOzowCreateReqOk.total_cents =
       computeTotalsSubtotal fxOzowCreateReqOk.items + expectedShip fxOzowCreateReqOk) ∧
    (fxPFCreateOrder.total_cents = fxPFCreateReq.total.getD 0 ∧
     getField fxPFCreatePost "amount" =
       some (centsToAmountStr (fxPFCreateReq.total.getD 0))) :=
  ⟨server_side_amount.1 idH fxOzowEnv fxOzowCreateReqOk (chars "M") (chars "s")
      (chars "o") fxOzowOkOrder fxOzowOkPost (by decide),
   server_side_amount.2 (constH "md") fxPFEnv fxPFCreateReq (chars "P1")
      (chars "O1") fxPFCreateOrder fxPFCreatePost (by decide)⟩

/-- C9: each payment request builder fails with a configuration error
whenever any required configured value (site/merchant identifiers, the hash
secret it uses, every callback URL) is absent, and with all of them present
returns a payload whose signature field is set to the computed digest —
`HashCheck` for both Ozow builder revisions, a final `signature` entry for
the PayFast builder. -/
theorem builder_config_validation :
    (∀ (H : Str → Str) (env : OzowEnv) (input : OzowBuildInput),
      (env.SITE = [] ∨ env.API_KEY = [] ∨ env.SUCCESS = [] ∨ env.CANCEL = [] ∨
       env.ERROR = [] ∨ env.NOTIFY = []) →
      ∃ e, OzowA.buildPost H env input = .error e) ∧
    (∀ (H : Str → Str) (env : OzowEnv) (input : OzowBuildInput),
      env.SITE ≠ [] → env.API_KEY ≠ [] → env.SUCCESS ≠ [] → env.CANCEL ≠ [] →
      env.ERROR ≠ [] → env.NOTIFY ≠ [] →
      ∃ p : OzowPost, p.HashCheck = none ∧
        OzowA.buildPost H env input =
          .ok { p with HashCheck := some (computePostHash H env.API_KEY p) }) ∧
    (∀ (H : Str → Str) (env : OzowEnv) (input : OzowBuildInput),
      (env.SITE = [] ∨ env.PRIVATE_KEY = [] ∨ env.SUCCESS = [] ∨ env.CANCEL = [] ∨
       env.ERROR = [] ∨ env.NOTIFY = []) →
      ∃ e, OzowB.buildPost H env input = .error e) ∧
    (∀ (H : Str → Str) (env : OzowEnv) (input : OzowBuildInput),
      env.SITE ≠ [] → env.PRIVATE_KEY ≠ [] → env.SUCCESS ≠ [] → env.CANCEL ≠ [] →
      env.ERROR ≠ [] → env.NOTIFY ≠ [] →
      ∃ p : OzowPost, p.HashCheck = none ∧
        OzowB.buildPost H env input =
          .ok { p with HashCheck := some (computePostHash H env.PRIVATE_KEY p) }) ∧
    (∀ (H : Str → Str) (env : PFEnv) (input : PFBuildInput),
      (env.MERCHANT_ID = [] ∨ env.MERCHANT_KEY = [] ∨ env.RETURN_URL = [] ∨
       env.CANCEL_URL = [] ∨ env.NOTIFY_URL = []) →
      ∃ e, PayFast.buildPost H env input = .error e) ∧
    (∀ (H : Str → Str) (env : PFEnv) (input : PFBuildInput),
      env.MERCHANT_ID ≠ [] → env.MERCHANT_KEY ≠ [] → env.RETURN_URL ≠ [] →
      env.CANCEL_URL ≠ [] → env.NOTIFY_URL ≠ [] →
      ∃ base, PayFast.buildPost H env input =
        .ok (base ++ [(chars "signature", computeSignature H env.PASSPHRASE base)])) := by
  refine ⟨?_, ?_, ?_, ?_, ?_, ?_⟩
  · intro H env input h
    unfold OzowA.buildPost
    split_ifs with h1 h2 h3 h4 h5 h6
    · exact ⟨_, rfl⟩
    · exact ⟨_, rfl⟩
    · exact ⟨_, rfl⟩
    · exact ⟨_, rfl⟩
    · exact ⟨_, rfl⟩
    · exact ⟨_, rfl⟩
    · rcases h with h | h | h | h | h | h <;> contradiction
  · intro H env input h1 h2 h3 h4 h5 h6
    let p0 : OzowPost :=
      { SiteCode := env.SITE, CountryCode := env.COUNTRY,
        CurrencyCode := env.CURRENCY, Amount := input.amountStr,
        TransactionReference := input.transactionRef,
        BankReference := sanitizeBankRef input.bankRef,
        CancelUrl := some env.CANCEL, ErrorUrl := some env.ERROR,
        SuccessUrl := some env.SUCCESS, NotifyUrl := some env.NOTIFY,
        Customer := input.customerEmail, Optional1 := input.Optional1,
        Optional2 := input.Optional2, Optional3 := input.Optional3,
        Optional4 := input.Optional4, Optional5 := input.Optional5,
        IsTest := env.IS_TEST, HashCheck := none }
    refine ⟨p0, rfl, ?_⟩
    simp only [OzowA.buildPost, if_neg h1, if_neg h2, if_neg h3, if_neg h4,
      if_neg h5, if_neg h6]
  · intro H env input h
    unfold OzowB.buildPost
    split_ifs with h1 h2 h3 h4 h5 h6
    · exact ⟨_, rfl⟩
    · exact ⟨_, rfl⟩
    · exact ⟨_, rfl⟩
    · exact ⟨_, rfl⟩
    · exact ⟨_, rfl⟩
    · exact ⟨_, rfl⟩
    · rcases h with h | h | h | h | h | h <;> contradiction
  · intro H env input h1 h2 h3 h4 h5 h6
    let p0 : OzowPost :=
      { SiteCode := env.SITE, CountryCode := env.COUNTRY,
        CurrencyCode := env.CURRENCY, Amount := input.amountStr,
        TransactionReference := input.transactionRef,
        BankReference := sanitizeBankRef input.bankRef,
        CancelUrl := some env.CANCEL, ErrorUrl := some env.ERROR,
        SuccessUrl := some env.SUCCESS, NotifyUrl := some env.NOTIFY,
        Customer := none, Optional1 := none, Optional2 := none, Optional3 := none,
        Optional4 := none, Optional5 := none,
        IsTest := env.IS_TEST, HashCheck := none }
    refine ⟨p0, rfl, ?_⟩
    simp only [OzowB.buildPost, if_neg h1, if_neg h2, if_neg h3, if_neg h4,
      if_neg h5, if_neg h6]
  · intro H env input h
    unfold PayFast.buildPost
    split_ifs with h1 h2 h3 h4 h5
    · exact ⟨_, rfl⟩
    · exact ⟨_, rfl⟩
    · exact ⟨_, rfl⟩
    · exact ⟨_, rfl⟩
    · exact ⟨_, rfl⟩
    · rcases h with h | h | h | h | h <;> contradiction
  · intro H env input h1 h2 h3 h4 h5
    let base : List (Str × Str) :=
      [(chars "merchant_id", env.MERCHANT_ID),
       (chars "merchant_key", env.MERCHANT_KEY),
       (chars "return_url", env.RETURN_URL),
       (chars "cancel_url", env.CANCEL_URL),
       (chars "notify_url", env.NOTIFY_URL),
       (chars "m_payment_id", input.paymentId),
       (chars "amount", input.amountStr),
       (chars "item_name", input.itemName)] ++
      optEntry "item_description" input.itemDescription ++
      (match input.customerEmail with
       | some e =>
         if e ≠ [] then
           [(chars "email_address", e), (chars "email_confirmation", chars "1"),
            (chars "confirmation_address", e)]
         else []
       | none => []) ++
      optEntry "name_first" input.customerFirstName ++
      optEntry "name_last" input.customerLastName ++
      optEntry "cell_number" input.customerCell ++
      optEntry "custom_str1" input.customStr1 ++
      optEntry "custom_str2" input.customStr2 ++
      optEntry "custom_str3" input.customStr3 ++
      optEntry "custom_str4" input.customStr4 ++
      optEntry "custom_str5" input.customStr5
    refine ⟨base, ?_⟩
    simp only [PayFast.buildPost, if_neg h1, if_neg h2, if_neg h3, if_neg h4,
      if_neg h5]

/-- Witness for C9: a missing site code makes both Ozow builders and a
missing merchant id makes the PayFast builder fail, and the fully configured
environments yield signed payloads. -/
theorem builder_config_validation_witness :
    (∃ e, OzowA.buildPost idH fxOzowEnvMissing fxOzowInput = .error e) ∧
    (∃ p : OzowPost, p.HashCheck = none ∧
      OzowA.buildPost idH fxOzowEnv fxOzowInput =
        .ok { p with HashCheck := some (computePostHash idH fxOzowEnv.API_KEY p) }) ∧
    (∃ e, OzowB.buildPost idH fxOzowEnvMissing fxOzowInput = .error e) ∧
    (∃ p : OzowPost, p.HashCheck = none ∧
      OzowB.buildPost idH fxOzowEnv fxOzowInput =
        .ok { p with HashCheck := some (computePostHash idH fxOzowEnv.PRIVATE_KEY p) }) ∧
    (∃ e, PayFast.buildPost idH fxPFEnvMissing fxPFInput = .error e) ∧
    (∃ base, PayFast.buildPost idH fxPFEnv fxPFInput =
      .ok (base ++ [(chars "signature", computeSignature idH fxPFEnv.PASSPHRASE base)])) :=
  ⟨builder_config_validation.1 idH fxOzowEnvMissing fxOzowInput (Or.inl rfl),
   builder_config_validation.2.1 idH fxOzowEnv fxOzowInput
     (by decide) (by decide) (by decide) (by decide) (by decide) (by decide),
   builder_config_validation.2.2.1 idH fxOzowEnvMissing fxOzowInput (Or.inl rfl),
   builder_config_validation.2.2.2.1 idH fxOzowEnv fxOzowInput
     (by decide) (by decide) (by decide) (by decide) (by decide) (by decide),
   builder_config_validation.2.2.2.2.1 idH fxPFEnvMissing fxPFInput (Or.inl rfl),
   builder_config_validation.2.2.2.2.2 idH fxPFEnv fxPFInput
     (by decide) (by decide) (by decide) (by decide) (by decide)⟩

/-- C10: with the Ozow configuration present, the create endpoint rejects a
request with `BAD_SHIPPING` (creating nothing) whenever the client's
`shipping_cents` differs from the server fee table, a successful create
implies agreement, and the fee table is: 0 for pickup; for delivery with a
non-empty item list, 100000 cents when some item title contains "lounger"
case-insensitively and 25000 cents otherwise. -/
theorem ozow_shipping_table :
    ∀ (sha512hex : Str → Str) (env : OzowEnv) (req : OzowCreateReq)
      (mRef oidSuffix oid : Str),
      env.SITE ≠ [] → env.API_KEY ≠ [] → env.SUCCESS ≠ [] → env.CANCEL ≠ [] →
      env.ERROR ≠ [] → env.NOTIFY ≠ [] →
      ((req.shipping_cents ≠ expectedShip req →
          ozowCreate sha512hex env req mRef oidSuffix oid = .error "BAD_SHIPPING") ∧
       (∀ r, ozowCreate sha512hex env req mRef oidSuffix oid = .ok r →
          req.shipping_cents = expectedShip req) ∧
       (req.shippingType = chars "pickup" → expectedShip req = 0) ∧
       (¬ req.shippingType = chars "pickup" → req.items ≠ [] →
          hasLounger req.items = true → expectedShip req = 100000) ∧
       (¬ req.shippingType = chars "pickup" → req.items ≠ [] →
          hasLounger req.items = false → expectedShip req = 25000)) := by
  intro sha512hex env req mRef oidSuffix oid h1 h2 h3 h4 h5 h6
  have key : req.shipping_cents ≠ expectedShip req →
      ozowCreate sha512hex env req mRef oidSuffix oid = .error "BAD_SHIPPING" := by
    intro hne
    unfold ozowCreate
    rw [if_neg (by simp [h1, h2, h3, h4, h5, h6])]
    rw [if_pos (Ne.symm hne)]
  refine ⟨key, ?_, ?_, ?_, ?_⟩
  · intro r hr
    by_contra hne
    rw [key hne] at hr
    exact Except.noConfusion hr
  · intro hp
    simp [expectedShip, hp]
  · intro hp hne hl
    simp [expectedShip, hp, hne, hl]
  · intro hp hne hl
    simp [expectedShip, hp, hne, hl]

/-- Witness for C10: the pickup request declaring 5 cents of shipping is
rejected with `BAD_SHIPPING`, and the fee table evaluates as claimed on
concrete pickup, lounger and non-lounger requests. -/
theorem ozow_shipping_table_witness :
    ozowCreate idH fxOzowEnv fxOzowCreateReqBadShip (chars "M") (chars "s") (chars "o") =
      .error "BAD_SHIPPING" ∧
    expectedShip fxOzowCreateReqBadShip = 0 :=
  ⟨(ozow_shipping_table idH fxOzowEnv fxOzowCreateReqBadShip (chars "M") (chars "s")
      (chars "o") (by decide) (by decide) (by decide) (by decide) (by decide)
      (by decide)).1 (by decide),
   (ozow_shipping_table idH fxOzowEnv fxOzowCreateReqBadShip (chars "M") (chars "s")
      (chars "o") (by decide) (by decide) (by decide) (by decide) (by decide)
      (by decide)).2.2.1 rfl⟩
